import Mathlib

/-!
Verification of the `polar_auth` user model and form layer (`src/users/models.py`,
`src/users/forms.py`, exercised by `src/users/tests.py`).

The Django model and manager are embedded shallowly: a `User` record carries the
model fields (with their declared defaults) together with the plain python
attributes (`admin`, `staff`, `active`) that the manager assigns on the instance;
those are `Option Bool`, `none` meaning the attribute was never set.  The
database is a list of saved users, `save` appends, and randomness (the
`uuid.uuid1().int` value) is an explicit `Nat` input.  Fallible factory
operations return `Except String User` paired with the resulting database.
-/

/-- Strip leading and trailing whitespace from a character list (python's
`str.strip()`). -/
def stripChars (l : List Char) : List Char :=
  ((l.dropWhile Char.isWhitespace).reverse.dropWhile Char.isWhitespace).reverse

/-- Split a character list at the LAST occurrence of `c` (python's
`rsplit(c, 1)`): `some (before, after)`, or `none` when `c` does not occur. -/
def rsplitAt (c : Char) : List Char → Option (List Char × List Char)
  | [] => none
  | a :: t =>
    match rsplitAt c t with
    | some (b, aft) => some (a :: b, aft)
    | none => if a = c then some ([], t) else none

/-- Email normalization as performed by the framework's
`BaseUserManager.normalize_email`: strip surrounding whitespace, split at the
last `@`, and lowercase the domain part; an email with no `@` is returned
unchanged. -/
def normalize_email (email : String) : String :=
  match rsplitAt '@' (stripChars email.toList) with
  | none => email
  | some (name, domain) =>
    String.mk name ++ "@" ++ String.mk (domain.map Char.toLower)

/-- The `User` model of `src/users/models.py` (fields in declaration order, with
the Django field defaults), plus the three instance attributes `admin`, `staff`,
`active` that `UserManager` assigns outside the declared fields (`none` while
unassigned), and the framework fields `is_staff`/`is_active`/`is_superuser`
inherited from `AbstractUser`. -/
structure User where
  email : String
  password : String
  admin : Option Bool
  staff : Option Bool
  active : Option Bool
  is_staff : Bool
  is_active : Bool
  is_superuser : Bool
  home_address : String
  has_own_device : Bool
  size : String
  consent : Bool
  privacy : Bool
  first_survey_done : Bool
  authorized : Bool
  polar_id : Option String
  user_id : Nat
  has_received_email : Bool
  device_sent : Bool
  dropped_out : Bool
  received_data : Bool
  data_received_date : Option Nat
  filled_surveys : List Nat
deriving Repr, DecidableEq

/-- A model instance as built by `self.model(email=...)`: every declared field at
its default, the given email, and the manager-assigned attributes absent. -/
def blankUser (email : String) : User :=
  { email := email
    password := ""
    admin := none
    staff := none
    active := none
    is_staff := false
    is_active := true
    is_superuser := false
    home_address := ""
    has_own_device := false
    size := ""
    consent := false
    privacy := false
    first_survey_done := false
    authorized := false
    polar_id := none
    user_id := 0
    has_received_email := false
    device_sent := false
    dropped_out := false
    received_data := false
    data_received_date := none
    filled_surveys := [] }

/-- `user.set_password(password)` stores the (framework-hashed) password on the
instance; the hash itself is framework machinery, so the stored value is kept
abstractly as the given string. -/
def set_password (u : User) (password : String) : User :=
  { u with password := password }

/-- `User.ready_to_authorize` from `src/users/models.py`. -/
def User.ready_to_authorize (u : User) : Bool :=
  u.privacy && u.consent && u.first_survey_done

/-- `UserManager.create_user` from `src/users/models.py`.  `password` is an
`Option` because the python default is `None`; `uuid1_int` is the value of
`uuid.uuid1().int` (a 128-bit integer) for this call; `db` is the database the
final `user.save()` writes to.  Returns the result together with the database
after the call. -/
def UserManager.create_user (email : String) (password : Option String)
    (is_admin is_staff_arg is_active_arg : Bool) (uuid1_int : Nat)
    (db : List User) : Except String User × List User :=
  if email = "" then
    (Except.error "User email missing", db)
  else
    match password with
    | none => (Except.error "User pasword missing", db)
    | some p =>
      if p = "" then
        (Except.error "User pasword missing", db)
      else
        let user := set_password (blankUser (normalize_email email)) p
        let user := { user with
          admin := some is_admin
          staff := some is_staff_arg
          active := some is_active_arg
          is_superuser := is_admin
          consent := false
          user_id := uuid1_int >>> 96 }
        (Except.ok user, db ++ [user])

/-- `UserManager.create_superuser` from `src/users/models.py`.  Note that unlike
`create_user` it assigns `is_staff` (the real model field), not `staff`. -/
def UserManager.create_superuser (email : String) (password : Option String)
    (uuid1_int : Nat) (db : List User) : Except String User × List User :=
  if email = "" then
    (Except.error "User email missing", db)
  else
    match password with
    | none => (Except.error "User password missing", db)
    | some p =>
      if p = "" then
        (Except.error "User password missing", db)
      else
        let user := set_password (blankUser (normalize_email email)) p
        let user := { user with
          admin := some true
          is_staff := true
          active := some true
          is_superuser := true
          consent := false
          user_id := uuid1_int >>> 96 }
        (Except.ok user, db ++ [user])

/-- `User.objects.get(email=...)`: look a saved user up by email. -/
def get_by_email (db : List User) (email : String) : Option User :=
  db.find? fun u => u.email == email

/-!
The form layer.  `src/users/forms.py` in the tree holds only skeleton form
classes: it has no `PrivacyForm` at all, its `ConsentForm` lists no
`field_1`..`field_6`, and its `UserRegisterForm` has none of the device and
acknowledgement questions — yet `src/users/tests.py` imports and exercises all
of these.  The validation and save behaviour of the three forms therefore lives
in repository code that is not in the tree, and is modelled here from the spec
(§4.1–4.3), which the tests corroborate.  A form is modelled by its submitted
data, its computed error lists (field errors carry the offending field's name),
validity as emptiness of the errors, and `save` returning the updated user (or
user database) together with the number of notification emails dispatched.
-/

/-- Modelled from the spec: submitted data of the missing `PrivacyForm`
(spec §4.2: "Single required boolean field `privacy`"). -/
structure PrivacyFormData where
  privacy : Bool
deriving Repr, DecidableEq

/-- Modelled from the spec: the privacy form's field errors — the `privacy`
field "must be true or rejected", the error attached to the field. -/
def PrivacyForm.errors (d : PrivacyFormData) : List String :=
  if d.privacy then [] else ["privacy"]

/-- Modelled from the spec: privacy-form validity. -/
def PrivacyForm.is_valid (d : PrivacyFormData) : Bool :=
  (PrivacyForm.errors d).isEmpty

/-- Modelled from the spec: saving the privacy form on a user instance.
"On successful save, if the user's `consent` is already true AND
`first_survey_done` is true, exactly one notification is dispatched; otherwise
none."  Returns the updated user and the number of notifications, `none` when
the form is invalid. -/
def PrivacyForm.save (d : PrivacyFormData) (u : User) : Option (User × Nat) :=
  if PrivacyForm.is_valid d then
    some ({ u with privacy := true },
          if u.consent && u.first_survey_done then 1 else 0)
  else
    none

/-- Modelled from the spec: submitted data of the six consent checkboxes
(spec §4.3), absent from the `ConsentForm` in the tree but exercised by the
tests. -/
structure ConsentFormData where
  field_1 : Bool
  field_2 : Bool
  field_3 : Bool
  field_4 : Bool
  field_5 : Bool
  field_6 : Bool
deriving Repr, DecidableEq

/-- Modelled from the spec: the consent form's field errors — each of the six
fields is "individually mandatory — any false value rejects with a
field-specific error tied to that field". -/
def ConsentForm.errors (d : ConsentFormData) : List String :=
  (if d.field_1 then [] else ["field_1"]) ++
  (if d.field_2 then [] else ["field_2"]) ++
  (if d.field_3 then [] else ["field_3"]) ++
  (if d.field_4 then [] else ["field_4"]) ++
  (if d.field_5 then [] else ["field_5"]) ++
  (if d.field_6 then [] else ["field_6"])

/-- Modelled from the spec: consent-form validity. -/
def ConsentForm.is_valid (d : ConsentFormData) : Bool :=
  (ConsentForm.errors d).isEmpty

/-- Modelled from the spec: saving the consent form on a user instance.
"On success, sets `consent=true`; if the user's `privacy` and
`first_survey_done` are both already true, dispatches exactly one notification;
otherwise none." -/
def ConsentForm.save (d : ConsentFormData) (u : User) : Option (User × Nat) :=
  if ConsentForm.is_valid d then
    some ({ u with consent := true },
          if u.privacy && u.first_survey_done then 1 else 0)
  else
    none

/-- Modelled from the spec: submitted data of the full registration form
(spec §4.1) — the email, the device-ownership question, the three
acknowledgement questions, and the two password fields of the framework's
user-creation form.  Only the email field appears on the `UserRegisterForm` in
the tree; the rest is exercised by the tests. -/
structure RegisterFormData where
  email : String
  has_own_device : Bool
  full_time : Bool
  do_not_foresee_changing_employer : Bool
  will_return_tracker : Bool
  password1 : String
  password2 : String
deriving Repr, DecidableEq

/-- Modelled from the spec: the domain restriction on registration emails
("Email (aalto.fi only)" in the model's help text; the tests accept
`user3@aalto.fi` and reject `user@example.com`). -/
def email_domain_ok (email : String) : Bool :=
  List.isSuffixOf "@aalto.fi".toList email.toList

/-- Modelled from the spec: the registration form's field errors — email
"required and (per tests) domain-restricted"; the three acknowledgement fields
"must each be true or the submission is rejected with a field-level error";
non-matching passwords rejected on the confirmation field. -/
def UserRegisterForm.field_errors (d : RegisterFormData) : List String :=
  (if d.email = "" || !email_domain_ok d.email then ["email"] else []) ++
  (if d.full_time then [] else ["full_time"]) ++
  (if d.do_not_foresee_changing_employer then []
   else ["do_not_foresee_changing_employer"]) ++
  (if d.will_return_tracker then [] else ["will_return_tracker"]) ++
  (if d.password1 = d.password2 then [] else ["password2"])

/-- Modelled from the spec: the registration form's non-field errors — the
"device-ownership question must be true or rejected with a non-field error". -/
def UserRegisterForm.non_field_errors (d : RegisterFormData) : List String :=
  if d.has_own_device then []
  else ["We have run out of fitness trackers, please only register if you have a Polar fitness tracker of your own."]

/-- Modelled from the spec: registration-form validity. -/
def UserRegisterForm.is_valid (d : RegisterFormData) : Bool :=
  (UserRegisterForm.field_errors d).isEmpty &&
  (UserRegisterForm.non_field_errors d).isEmpty

/-- Modelled from the spec: saving a valid registration form "creates a User
with `consent=false`" carrying the submitted email (the framework form saves
the instance with the set password; all workflow flags keep their model
defaults). -/
def UserRegisterForm.save (d : RegisterFormData) (db : List User) :
    Option (User × List User) :=
  if UserRegisterForm.is_valid d then
    let u := set_password (blankUser d.email) d.password1
    some (u, db ++ [u])
  else
    none

/-!  Helper lemmas about the factory operations. -/

/-- The user record built by a successful `create_user` call. -/
def created_user (email p : String) (is_admin is_staff_arg is_active_arg : Bool)
    (uuid1_int : Nat) : User :=
  { set_password (blankUser (normalize_email email)) p with
    admin := some is_admin
    staff := some is_staff_arg
    active := some is_active_arg
    is_superuser := is_admin
    consent := false
    user_id := uuid1_int >>> 96 }

theorem create_user_eq_of_valid (email p : String) (a s v : Bool) (uid : Nat)
    (db : List User) (he : ¬ email = "") (hp : ¬ p = "") :
    UserManager.create_user email (some p) a s v uid db =
      (Except.ok (created_user email p a s v uid),
       db ++ [created_user email p a s v uid]) := by
  simp [UserManager.create_user, created_user, he, hp]

theorem create_user_ok_user_id (email : String) (password : Option String)
    (a s v : Bool) (uid : Nat) (db : List User) (u : User)
    (h : (UserManager.create_user email password a s v uid db).1 = Except.ok u) :
    u.user_id = uid >>> 96 := by
  by_cases he : email = ""
  · simp [UserManager.create_user, he] at h
  · match password with
    | none => simp [UserManager.create_user, he] at h
    | some p =>
      by_cases hp : p = ""
      · simp [UserManager.create_user, he, hp] at h
      · rw [create_user_eq_of_valid email p a s v uid db he hp] at h
        simp at h
        rw [← h]
        rfl

/-- C5: for every call of `UserManager.create_user`, an empty email or an
empty/absent password raises a `ValueError` (here: returns `Except.error`) and
no user is created (the database is unchanged). -/
theorem create_user_invalid_input (email : String) (password : Option String)
    (a s v : Bool) (uid : Nat) (db : List User)
    (h : email = "" ∨ password = none ∨ password = some "") :
    (∃ msg, (UserManager.create_user email password a s v uid db).1
        = Except.error msg) ∧
    (UserManager.create_user email password a s v uid db).2 = db := by
  rcases h with h | h | h
  · subst h
    exact ⟨⟨"User email missing", rfl⟩, rfl⟩
  · subst h
    by_cases he : email = "" <;> simp [UserManager.create_user, he]
  · subst h
    by_cases he : email = "" <;> simp [UserManager.create_user, he]

/-- Witness for C5: the call with an empty email (and the one with an empty
password) concretely errors out and leaves the database unchanged. -/
theorem create_user_invalid_input_witness :
    ((∃ msg, (UserManager.create_user "" (some "pw") false false true 7 []).1
        = Except.error msg) ∧
     (UserManager.create_user "" (some "pw") false false true 7 []).2 = []) ∧
    ((∃ msg, (UserManager.create_user "user1@aalto.fi" (some "") false false true 7 []).1
        = Except.error msg) ∧
     (UserManager.create_user "user1@aalto.fi" (some "") false false true 7 []).2 = []) :=
  ⟨create_user_invalid_input "" (some "pw") false false true 7 [] (Or.inl rfl),
   create_user_invalid_input "user1@aalto.fi" (some "") false false true 7 []
     (Or.inr (Or.inr rfl))⟩

/-- C6: every user returned by `create_user` on non-empty email and password has
`consent`, `privacy`, `first_survey_done`, `has_received_email`, `device_sent`
and `received_data` all false, and `ready_to_authorize()` returns false. -/
theorem create_user_fresh_flags (email p : String) (a s v : Bool) (uid : Nat)
    (db : List User) (he : ¬ email = "") (hp : ¬ p = "") :
    ∃ u, (UserManager.create_user email (some p) a s v uid db).1 = Except.ok u ∧
      u.consent = false ∧ u.privacy = false ∧ u.first_survey_done = false ∧
      u.has_received_email = false ∧ u.device_sent = false ∧
      u.received_data = false ∧ u.ready_to_authorize = false := by
  refine ⟨created_user email p a s v uid, ?_, ?_⟩
  · rw [create_user_eq_of_valid email p a s v uid db he hp]
  · simp [created_user, set_password, blankUser, User.ready_to_authorize]

/-- Witness for C6: the freshly created `user1@aalto.fi` concretely has all the
workflow flags false and is not ready to authorize. -/
theorem create_user_fresh_flags_witness :
    ∃ u, (UserManager.create_user "user1@aalto.fi" (some "a") false false true 7 []).1
        = Except.ok u ∧
      u.consent = false ∧ u.privacy = false ∧ u.first_survey_done = false ∧
      u.has_received_email = false ∧ u.device_sent = false ∧
      u.received_data = false ∧ u.ready_to_authorize = false :=
  create_user_fresh_flags "user1@aalto.fi" "a" false false true 7 []
    (by decide) (by decide)

/-- C7: for every user state, `ready_to_authorize()` returns true if and only
if `privacy`, `consent` and `first_survey_done` are all true. -/
theorem ready_to_authorize_iff (u : User) :
    u.ready_to_authorize = true ↔
      u.privacy = true ∧ u.consent = true ∧ u.first_survey_done = true := by
  simp [User.ready_to_authorize, Bool.and_eq_true, and_assoc]

/-- Witness for C7: the characterization instantiated at a concrete user. -/
theorem ready_to_authorize_iff_witness :
    (blankUser "user1@aalto.fi").ready_to_authorize = true ↔
      (blankUser "user1@aalto.fi").privacy = true ∧
      (blankUser "user1@aalto.fi").consent = true ∧
      (blankUser "user1@aalto.fi").first_survey_done = true :=
  ready_to_authorize_iff (blankUser "user1@aalto.fi")

/-- Counterexample for C8: the claim as frozen — distinct created users always
receive distinct identifiers — is false.  `create_user` keeps only the top 32
bits of the 128-bit `uuid1` value (`int(uuid.uuid1().int >> 96)`), so two
successful creations from uuid values `0` and `1` yield users that are distinct
(their emails differ) yet carry the same `user_id`. -/
theorem create_user_id_collision :
    (UserManager.create_user "user1@aalto.fi" (some "a") false false true 0 []).1.map
        User.email = Except.ok "user1@aalto.fi" ∧
    (UserManager.create_user "user2@aalto.fi" (some "b") false false true 1 []).1.map
        User.email = Except.ok "user2@aalto.fi" ∧
    (UserManager.create_user "user1@aalto.fi" (some "a") false false true 0 []).1.map
        User.user_id =
      (UserManager.create_user "user2@aalto.fi" (some "b") false false true 1 []).1.map
        User.user_id :=
  ⟨rfl, rfl, rfl⟩

/-- C8 (amended): two users produced by `create_user` receive distinct
identifiers provided the generating 128-bit uuid values differ in their top 32
bits — the assigned identifier is exactly `uuid1_int >>> 96`, so this is also
necessary. -/
theorem create_user_distinct_ids (e1 p1 e2 p2 : String) (a1 s1 v1 a2 s2 v2 : Bool)
    (u1 u2 : Nat) (db1 db2 : List User) (user1 user2 : User)
    (h1 : (UserManager.create_user e1 (some p1) a1 s1 v1 u1 db1).1 = Except.ok user1)
    (h2 : (UserManager.create_user e2 (some p2) a2 s2 v2 u2 db2).1 = Except.ok user2)
    (hne : u1 >>> 96 ≠ u2 >>> 96) :
    user1.user_id ≠ user2.user_id := by
  rw [create_user_ok_user_id e1 (some p1) a1 s1 v1 u1 db1 user1 h1,
      create_user_ok_user_id e2 (some p2) a2 s2 v2 u2 db2 user2 h2]
  exact hne

/-- Witness for C8 (amended): uuid values `0` and `2^96` differ in their top 32
bits and the two created users concretely receive distinct identifiers. -/
theorem create_user_distinct_ids_witness :
    (created_user "user1@aalto.fi" "a" false false true 0).user_id ≠
      (created_user "user2@aalto.fi" "b" false false true (2 ^ 96)).user_id := by
  have h1 : (UserManager.create_user "user1@aalto.fi" (some "a") false false true 0 []).1
      = Except.ok (created_user "user1@aalto.fi" "a" false false true 0) := rfl
  have h2 : (UserManager.create_user "user2@aalto.fi" (some "b") false false true (2 ^ 96) []).1
      = Except.ok (created_user "user2@aalto.fi" "b" false false true (2 ^ 96)) := rfl
  exact create_user_distinct_ids "user1@aalto.fi" "a" "user2@aalto.fi" "b"
    false false true false false true 0 (2 ^ 96) [] [] _ _ h1 h2 (by decide)

/-- C9: the identifier assigned at creation is the 128-bit `uuid1` value
truncated by a 96-bit right shift, and therefore lies in the range of a 96-bit
integer (indeed of a 32-bit one). -/
theorem create_user_id_lt_2_pow_96 (email : String) (password : Option String)
    (a s v : Bool) (uid : Nat) (db : List User) (u : User)
    (hu : uid < 2 ^ 128)
    (h : (UserManager.create_user email password a s v uid db).1 = Except.ok u) :
    u.user_id < 2 ^ 96 := by
  rw [create_user_ok_user_id email password a s v uid db u h,
      Nat.shiftRight_eq_div_pow]
  exact Nat.div_lt_of_lt_mul (lt_of_lt_of_le hu (by norm_num))

/-- Witness for C9: a concrete 128-bit uuid value gives a concrete `user_id`
below `2^96`. -/
theorem create_user_id_lt_2_pow_96_witness :
    (5 : Nat) < 2 ^ 128 ∧
    (created_user "user1@aalto.fi" "a" false false true 5).user_id < 2 ^ 96 := by
  have h : (UserManager.create_user "user1@aalto.fi" (some "a") false false true 5 []).1
      = Except.ok (created_user "user1@aalto.fi" "a" false false true 5) := rfl
  exact ⟨by norm_num,
    create_user_id_lt_2_pow_96 "user1@aalto.fi" (some "a") false false true 5 [] _
      (by norm_num) h⟩

/-- C10: `create_superuser` raises a `ValueError` on empty email or
empty/absent password, leaving the database unchanged; otherwise it persists
and returns a user with the normalized email, `consent=false`, a freshly
generated identifier (`uuid1_int >>> 96`), and the `admin`, staff, `active` and
superuser attributes set true (the staff flag it assigns is the model field
`is_staff`). -/
theorem create_superuser_spec (email : String) (password : Option String)
    (uid : Nat) (db : List User) :
    ((email = "" ∨ password = none ∨ password = some "") →
      (∃ msg, (UserManager.create_superuser email password uid db).1
          = Except.error msg) ∧
      (UserManager.create_superuser email password uid db).2 = db) ∧
    (∀ p, password = some p → ¬ email = "" → ¬ p = "" →
      ∃ u, (UserManager.create_superuser email password uid db).1 = Except.ok u ∧
        (UserManager.create_superuser email password uid db).2 = db ++ [u] ∧
        u.email = normalize_email email ∧ u.consent = false ∧
        u.user_id = uid >>> 96 ∧ u.admin = some true ∧ u.is_staff = true ∧
        u.active = some true ∧ u.is_superuser = true) := by
  constructor
  · rintro (h | h | h)
    · subst h
      exact ⟨⟨"User email missing", rfl⟩, rfl⟩
    · subst h
      by_cases he : email = "" <;> simp [UserManager.create_superuser, he]
    · subst h
      by_cases he : email = "" <;> simp [UserManager.create_superuser, he]
  · rintro p rfl he hp
    refine ⟨{ set_password (blankUser (normalize_email email)) p with
        admin := some true
        is_staff := true
        active := some true
        is_superuser := true
        consent := false
        user_id := uid >>> 96 }, ?_⟩
    simp [UserManager.create_superuser, he, hp, set_password, blankUser]

/-- Witness for C10: both branches instantiated — the empty-password call
concretely errors, and a valid call concretely returns the persisted
superuser. -/
theorem create_superuser_spec_witness :
    ((∃ msg, (UserManager.create_superuser "user1@aalto.fi" none 7 []).1
        = Except.error msg) ∧
     (UserManager.create_superuser "user1@aalto.fi" none 7 []).2 = []) ∧
    (∃ u, (UserManager.create_superuser "Admin@Aalto.FI" (some "pw") 7 []).1
        = Except.ok u ∧
      (UserManager.create_superuser "Admin@Aalto.FI" (some "pw") 7 []).2 = [] ++ [u] ∧
      u.email = normalize_email "Admin@Aalto.FI" ∧ u.consent = false ∧
      u.user_id = 7 >>> 96 ∧ u.admin = some true ∧ u.is_staff = true ∧
      u.active = some true ∧ u.is_superuser = true) :=
  ⟨(create_superuser_spec "user1@aalto.fi" none 7 []).1 (Or.inr (Or.inl rfl)),
   (create_superuser_spec "Admin@Aalto.FI" (some "pw") 7 []).2 "pw" rfl
     (by decide) (by decide)⟩

/-- C1: the privacy form's single required boolean field `privacy` rejects a
`false` submission with an error attached to the `privacy` field; saving a
`privacy=true` submission always succeeds, setting the flag, and dispatches
exactly one notification iff the user's `consent` and `first_survey_done` are
both already true, and zero notifications in the other three cases. -/
theorem privacy_form_correct :
    (∀ d : PrivacyFormData, d.privacy = false →
        PrivacyForm.is_valid d = false ∧ "privacy" ∈ PrivacyForm.errors d) ∧
    (∀ u : User,
        PrivacyForm.save ⟨true⟩ u =
          some ({ u with privacy := true },
                if u.consent && u.first_survey_done then 1 else 0) ∧
        (u.consent = true ∧ u.first_survey_done = true →
          PrivacyForm.save ⟨true⟩ u = some ({ u with privacy := true }, 1)) ∧
        (¬ (u.consent = true ∧ u.first_survey_done = true) →
          PrivacyForm.save ⟨true⟩ u = some ({ u with privacy := true }, 0))) := by
  constructor
  · rintro ⟨p⟩ h
    simp only at h
    subst h
    simp [PrivacyForm.is_valid, PrivacyForm.errors]
  · intro u
    refine ⟨by simp [PrivacyForm.save, PrivacyForm.is_valid, PrivacyForm.errors], ?_, ?_⟩
    · rintro ⟨hc, hs⟩
      simp [PrivacyForm.save, PrivacyForm.is_valid, PrivacyForm.errors, hc, hs]
    · intro h
      cases hc : u.consent <;> cases hs : u.first_survey_done <;>
        simp_all [PrivacyForm.save, PrivacyForm.is_valid, PrivacyForm.errors]

/-- Witness for C1: a `privacy=false` submission concretely fails on the
`privacy` field, and a `privacy=true` save on a fresh user (consent and survey
still false) concretely dispatches zero notifications. -/
theorem privacy_form_correct_witness :
    (PrivacyForm.is_valid ⟨false⟩ = false ∧ "privacy" ∈ PrivacyForm.errors ⟨false⟩) ∧
    PrivacyForm.save ⟨true⟩ (blankUser "user1@aalto.fi") =
      some ({ blankUser "user1@aalto.fi" with privacy := true }, 0) :=
  ⟨privacy_form_correct.1 ⟨false⟩ rfl,
   (privacy_form_correct.2 (blankUser "user1@aalto.fi")).2.2 (by decide)⟩

/-- C2: each of the six consent checkboxes is individually mandatory — a
submission with `field_i` false is invalid with an error tied to `field_i`; a
submission with all six true saves, sets `consent=true`, and dispatches exactly
one notification iff the user's `privacy` and `first_survey_done` are both
already true, and zero notifications otherwise. -/
theorem consent_form_correct :
    (∀ d : ConsentFormData,
      (d.field_1 = false → ConsentForm.is_valid d = false ∧ "field_1" ∈ ConsentForm.errors d) ∧
      (d.field_2 = false → ConsentForm.is_valid d = false ∧ "field_2" ∈ ConsentForm.errors d) ∧
      (d.field_3 = false → ConsentForm.is_valid d = false ∧ "field_3" ∈ ConsentForm.errors d) ∧
      (d.field_4 = false → ConsentForm.is_valid d = false ∧ "field_4" ∈ ConsentForm.errors d) ∧
      (d.field_5 = false → ConsentForm.is_valid d = false ∧ "field_5" ∈ ConsentForm.errors d) ∧
      (d.field_6 = false → ConsentForm.is_valid d = false ∧ "field_6" ∈ ConsentForm.errors d)) ∧
    (∀ u : User,
        ConsentForm.save ⟨true, true, true, true, true, true⟩ u =
          some ({ u with consent := true },
                if u.privacy && u.first_survey_done then 1 else 0) ∧
        (u.privacy = true ∧ u.first_survey_done = true →
          ConsentForm.save ⟨true, true, true, true, true, true⟩ u =
            some ({ u with consent := true }, 1)) ∧
        (¬ (u.privacy = true ∧ u.first_survey_done = true) →
          ConsentForm.save ⟨true, true, true, true, true, true⟩ u =
            some ({ u with consent := true }, 0))) := by
  constructor
  · have key : ∀ b1 b2 b3 b4 b5 b6 : Bool,
        (b1 = false → ConsentForm.is_valid ⟨b1, b2, b3, b4, b5, b6⟩ = false ∧
          "field_1" ∈ ConsentForm.errors ⟨b1, b2, b3, b4, b5, b6⟩) ∧
        (b2 = false → ConsentForm.is_valid ⟨b1, b2, b3, b4, b5, b6⟩ = false ∧
          "field_2" ∈ ConsentForm.errors ⟨b1, b2, b3, b4, b5, b6⟩) ∧
        (b3 = false → ConsentForm.is_valid ⟨b1, b2, b3, b4, b5, b6⟩ = false ∧
          "field_3" ∈ ConsentForm.errors ⟨b1, b2, b3, b4, b5, b6⟩) ∧
        (b4 = false → ConsentForm.is_valid ⟨b1, b2, b3, b4, b5, b6⟩ = false ∧
          "field_4" ∈ ConsentForm.errors ⟨b1, b2, b3, b4, b5, b6⟩) ∧
        (b5 = false → ConsentForm.is_valid ⟨b1, b2, b3, b4, b5, b6⟩ = false ∧
          "field_5" ∈ ConsentForm.errors ⟨b1, b2, b3, b4, b5, b6⟩) ∧
        (b6 = false → ConsentForm.is_valid ⟨b1, b2, b3, b4, b5, b6⟩ = false ∧
          "field_6" ∈ ConsentForm.errors ⟨b1, b2, b3, b4, b5, b6⟩) := by decide
    rintro ⟨f1, f2, f3, f4, f5, f6⟩
    exact key f1 f2 f3 f4 f5 f6
  · intro u
    refine ⟨by simp [ConsentForm.save, ConsentForm.is_valid, ConsentForm.errors], ?_, ?_⟩
    · rintro ⟨hp, hs⟩
      simp [ConsentForm.save, ConsentForm.is_valid, ConsentForm.errors, hp, hs]
    · intro h
      cases hp : u.privacy <;> cases hs : u.first_survey_done <;>
        simp_all [ConsentForm.save, ConsentForm.is_valid, ConsentForm.errors]

/-- Witness for C2: a submission with only `field_4` false concretely fails on
`field_4`, and an all-true save on a user with `privacy` and
`first_survey_done` already true concretely dispatches one notification. -/
theorem consent_form_correct_witness :
    (ConsentForm.is_valid ⟨true, true, true, false, true, true⟩ = false ∧
      "field_4" ∈ ConsentForm.errors ⟨true, true, true, false, true, true⟩) ∧
    ConsentForm.save ⟨true, true, true, true, true, true⟩
        { blankUser "user1@aalto.fi" with privacy := true, first_survey_done := true } =
      some ({ blankUser "user1@aalto.fi" with
                privacy := true, first_survey_done := true, consent := true }, 1) :=
  ⟨((consent_form_correct.1 ⟨true, true, true, false, true, true⟩).2.2.2.1) rfl,
   (consent_form_correct.2
      { blankUser "user1@aalto.fi" with privacy := true, first_survey_done := true }).2.1
     ⟨rfl, rfl⟩⟩

/-- C3: the registration form rejects a submission when the email is empty or
outside the allowed domain (error on the `email` field), when
`has_own_device` is false (a non-field error), or when any of the three
acknowledgement fields is false (a field-specific error on that field). -/
theorem register_form_rejections (d : RegisterFormData) :
    (d.email = "" →
      UserRegisterForm.is_valid d = false ∧ "email" ∈ UserRegisterForm.field_errors d) ∧
    (email_domain_ok d.email = false →
      UserRegisterForm.is_valid d = false ∧ "email" ∈ UserRegisterForm.field_errors d) ∧
    (d.has_own_device = false →
      UserRegisterForm.is_valid d = false ∧ UserRegisterForm.non_field_errors d ≠ []) ∧
    (d.full_time = false →
      UserRegisterForm.is_valid d = false ∧ "full_time" ∈ UserRegisterForm.field_errors d) ∧
    (d.do_not_foresee_changing_employer = false →
      UserRegisterForm.is_valid d = false ∧
      "do_not_foresee_changing_employer" ∈ UserRegisterForm.field_errors d) ∧
    (d.will_return_tracker = false →
      UserRegisterForm.is_valid d = false ∧
      "will_return_tracker" ∈ UserRegisterForm.field_errors d) := by
  refine ⟨?_, ?_, ?_, ?_, ?_, ?_⟩ <;> intro h <;>
    simp [UserRegisterForm.is_valid, UserRegisterForm.field_errors,
          UserRegisterForm.non_field_errors, h]

/-- Witness for C3: the empty email, the out-of-domain email
`user@example.com`, the missing device, and each acknowledgement field set
false all concretely reject the otherwise valid test submission. -/
theorem register_form_rejections_witness :
    (UserRegisterForm.is_valid
        ⟨"", true, true, true, true, "pw", "pw"⟩ = false ∧
      "email" ∈ UserRegisterForm.field_errors
        ⟨"", true, true, true, true, "pw", "pw"⟩) ∧
    (UserRegisterForm.is_valid
        ⟨"user@example.com", true, true, true, true, "pw", "pw"⟩ = false ∧
      "email" ∈ UserRegisterForm.field_errors
        ⟨"user@example.com", true, true, true, true, "pw", "pw"⟩) ∧
    (UserRegisterForm.is_valid
        ⟨"user3@aalto.fi", false, true, true, true, "pw", "pw"⟩ = false ∧
      UserRegisterForm.non_field_errors
        ⟨"user3@aalto.fi", false, true, true, true, "pw", "pw"⟩ ≠ []) ∧
    (UserRegisterForm.is_valid
        ⟨"user3@aalto.fi", true, false, true, true, "pw", "pw"⟩ = false ∧
      "full_time" ∈ UserRegisterForm.field_errors
        ⟨"user3@aalto.fi", true, false, true, true, "pw", "pw"⟩) ∧
    (UserRegisterForm.is_valid
        ⟨"user3@aalto.fi", true, true, false, true, "pw", "pw"⟩ = false ∧
      "do_not_foresee_changing_employer" ∈ UserRegisterForm.field_errors
        ⟨"user3@aalto.fi", true, true, false, true, "pw", "pw"⟩) ∧
    (UserRegisterForm.is_valid
        ⟨"user3@aalto.fi", true, true, true, false, "pw", "pw"⟩ = false ∧
      "will_return_tracker" ∈ UserRegisterForm.field_errors
        ⟨"user3@aalto.fi", true, true, true, false, "pw", "pw"⟩) :=
  ⟨(register_form_rejections ⟨"", true, true, true, true, "pw", "pw"⟩).1 rfl,
   (register_form_rejections
      ⟨"user@example.com", true, true, true, true, "pw", "pw"⟩).2.1 (by decide),
   (register_form_rejections
      ⟨"user3@aalto.fi", false, true, true, true, "pw", "pw"⟩).2.2.1 rfl,
   (register_form_rejections
      ⟨"user3@aalto.fi", true, false, true, true, "pw", "pw"⟩).2.2.2.1 rfl,
   (register_form_rejections
      ⟨"user3@aalto.fi", true, true, false, true, "pw", "pw"⟩).2.2.2.2.1 rfl,
   (register_form_rejections
      ⟨"user3@aalto.fi", true, true, true, false, "pw", "pw"⟩).2.2.2.2.2 rfl⟩

/-- C4: a registration submission with an allowed-domain email, all required
boolean fields true and matching passwords is valid, and saving it appends a
user that is retrievable by that email and whose `consent` flag is false. -/
theorem register_form_success (d : RegisterFormData) (db : List User)
    (hdom : email_domain_ok d.email = true)
    (hdev : d.has_own_device = true)
    (hft : d.full_time = true)
    (hch : d.do_not_foresee_changing_employer = true)
    (hret : d.will_return_tracker = true)
    (hpw : d.password1 = d.password2)
    (hfresh : get_by_email db d.email = none) :
    UserRegisterForm.is_valid d = true ∧
    ∃ u db2, UserRegisterForm.save d db = some (u, db2) ∧
      get_by_email db2 d.email = some u ∧ u.email = d.email ∧ u.consent = false := by
  have he : ¬ d.email = "" := by
    intro h
    rw [h] at hdom
    exact absurd hdom (by decide)
  have hvalid : UserRegisterForm.is_valid d = true := by
    simp [UserRegisterForm.is_valid, UserRegisterForm.field_errors,
          UserRegisterForm.non_field_errors, he, hdom, hdev, hft, hch, hret, hpw]
  refine ⟨hvalid, set_password (blankUser d.email) d.password1, db ++ [set_password (blankUser d.email) d.password1], ?_, ?_, rfl, rfl⟩
  · simp [UserRegisterForm.save, hvalid]
  · unfold get_by_email at hfresh ⊢
    simp [List.find?_append, hfresh, set_password, blankUser]

/-- Witness for C4: the test submission for `user3@aalto.fi` concretely
validates, saves into the empty database, and the saved user is retrieved by
that email with `consent=false`. -/
theorem register_form_success_witness :
    UserRegisterForm.is_valid
        ⟨"user3@aalto.fi", true, true, true, true, "1Xx7a", "1Xx7a"⟩ = true ∧
    ∃ u db2,
      UserRegisterForm.save
          ⟨"user3@aalto.fi", true, true, true, true, "1Xx7a", "1Xx7a"⟩ [] =
        some (u, db2) ∧
      get_by_email db2 "user3@aalto.fi" = some u ∧
      u.email = "user3@aalto.fi" ∧ u.consent = false :=
  register_form_success ⟨"user3@aalto.fi", true, true, true, true, "1Xx7a", "1Xx7a"⟩
    [] (by decide) rfl rfl rfl rfl rfl rfl
